import Mathlib

/-!
Shallow embedding of the eden APFS mount helper
(src/eden/scm/exec/eden_apfs_mount_helper/src/main.rs).

Every external command the program would spawn is recorded in a trace
(a list of `Cmd` values); operations return the spawned-command trace
together with an `Except Err` result.  Assertion failures (Rust `assert!`)
are modelled as errors: the process aborts and no subprocess is spawned.
The outcome of the operating system (catalog contents, path metadata,
process ids, subprocess exit status) is an explicit `SysEnv` parameter.
-/

/-- The fixed absolute path of the diskutil binary (constant `DISKUTIL` in the source). -/
def DISKUTIL : String := "/usr/sbin/diskutil"

/-- The fixed absolute path of the mount_apfs binary (constant `MOUNT_APFS` in the source). -/
def MOUNT_APFS : String := "/sbin/mount_apfs"

/-- One APFS volume record, as decoded from the diskutil listing (struct `ApfsVolume`). -/
structure ApfsVolume where
  device_identifier : String
  mount_point : Option String
  name : Option String
  deriving Repr, DecidableEq

/-- One APFS container record (struct `ApfsContainer`): a container reference and its volumes in order. -/
structure ApfsContainer where
  container_reference : String
  volumes : List ApfsVolume
  deriving Repr, DecidableEq

/-- A subprocess invocation: the program path, its argument list, and the
real uid and gid forced onto the child when the parent de-privileges it
(`none` when the command inherits the parent identity unchanged). -/
structure Cmd where
  program : String
  args : List String
  setCreds : Option (Nat × Nat)
  deriving Repr, DecidableEq

/-- The part of a spawned command observable to the catalog layer: program and arguments. -/
def Cmd.visible (c : Cmd) : String × List String := (c.program, c.args)

/-- The typed failures of the helper, one constructor per distinct bail or assertion site. -/
inductive Err where
  | notAbsolute (path : String)
  | notRoot (path : String)
  | sudoUidNotInt (s : String)
  | sudoUidNotUnicode
  | metadataError (path : String)
  | notOwner (path : String) (ownerUid myUid : Nat)
  | cmdFailed (prog : String) (args : List String)
  | createFailed (nm : String)
  | volumeNotFound (nm : String)
  | chownFailed
  deriving Repr, DecidableEq

/-- The state of the SUDO_UID environment variable: present with a unicode
value, absent, or present with non-unicode bytes. -/
inductive SudoUidVar where
  | present (s : String)
  | absent
  | notUnicode
  deriving Repr, DecidableEq

/-- The ambient system state an invocation observes: real uid and gid,
effective uid, the SUDO_UID variable, the catalog diskutil reports (and
the catalog it reports after an addVolume), filesystem metadata (owner
uid and gid) per path, the exit status of each spawned command keyed by
program and arguments, and whether the final chown succeeds. -/
structure SysEnv where
  uid : Nat
  gid : Nat
  euid : Nat
  sudoUid : SudoUidVar
  containers : List ApfsContainer
  containersAfterAdd : List ApfsContainer
  pathMeta : String → Option (Nat × Nat)
  cmdSucceeds : String → List String → Bool
  chownOk : Bool

/-- Models Rust str::starts_with: t is a prefix of the character sequence of s. -/
def strStartsWith (s t : String) : Bool := t.data.isPrefixOf s.data

/-- Models Rust Path::is_absolute on unix: the path starts with a slash. -/
def isAbsolutePath (p : String) : Bool := strStartsWith p "/"

/-- Models `new_cmd_with_root_privs`: asserts the path is absolute and the
effective uid is 0; the command then runs unchanged with the parent's
(privileged) identity.  A violated assertion aborts with no subprocess. -/
def new_cmd_with_root_privs (env : SysEnv) (path : String) : Except Err Cmd :=
  if isAbsolutePath path then
    if env.euid = 0 then .ok ⟨path, [], none⟩
    else .error (.notRoot path)
  else .error (.notAbsolute path)

/-- Models `new_cmd_unprivileged`: asserts the path is absolute; when the
effective uid is 0 the child is forced down to the caller's real uid and gid. -/
def new_cmd_unprivileged (env : SysEnv) (path : String) (args : List String) : Except Err Cmd :=
  if isAbsolutePath path then
    .ok ⟨path, args, if env.euid = 0 then some (env.uid, env.gid) else none⟩
  else .error (.notAbsolute path)

/-- Models Rust str::parse::<u32>: an optional leading plus sign followed by
one or more ASCII digits, and the value must fit in 32 bits. -/
def parseU32 (s : String) : Option Nat :=
  let t := if strStartsWith s "+" then s.drop 1 else s
  if !t.data.isEmpty && t.data.all Char.isDigit then
    let n := t.data.foldl (fun acc c => acc * 10 + (c.toNat - 48)) 0
    if n < 4294967296 then some n else none
  else none

/-- Models `get_real_uid`: the real uid when non-zero; for real root, the
parsed SUDO_UID when present (a malformed or non-unicode value is fatal),
and 0 when SUDO_UID is absent. -/
def get_real_uid (env : SysEnv) : Except Err Nat :=
  if env.uid ≠ 0 then .ok env.uid
  else
    match env.sudoUid with
    | .present s =>
      match parseU32 s with
      | some n => .ok n
      | none => .error (.sudoUidNotInt s)
    | .absent => .ok env.uid
    | .notUnicode => .error .sudoUidNotUnicode

/-- Models `encode_mount_point_as_volume_name`: the fixed namespace string
followed by the mount point verbatim. -/
def encode_mount_point_as_volume_name (mount_point : String) : String :=
  "edenfs:" ++ mount_point

/-- Models `find_existing_volume`: scan containers in order and each
container's volumes in order, returning the first volume whose name field
equals `some nm`. -/
def find_existing_volume (containers : List ApfsContainer) (nm : String) : Option ApfsVolume :=
  match containers with
  | [] => none
  | container :: rest =>
    match container.volumes.find? (fun volume => volume.name == some nm) with
    | some volume => some volume
    | none => find_existing_volume rest nm

/-- Models `apfs_list`: spawn diskutil apfs list -plist unprivileged; on
success the decoded catalog is `cat` (decoding is modelled as faithful; a
non-zero exit is an error).  The trace records the spawned command. -/
def apfs_list (env : SysEnv) (cat : List ApfsContainer) :
    Except Err (List ApfsContainer) × List Cmd :=
  match new_cmd_unprivileged env DISKUTIL ["apfs", "list", "-plist"] with
  | .error e => (.error e, [])
  | .ok c =>
    if env.cmdSucceeds c.program c.args then (.ok cat, [c])
    else (.error (.cmdFailed c.program c.args), [c])

/-- Models `make_new_volume`: spawn diskutil apfs addVolume disk1 apfs nm
-nomount unprivileged, then re-list the catalog and look the new volume up
by name; not finding it is an error. -/
def make_new_volume (env : SysEnv) (nm : String) : Except Err ApfsVolume × List Cmd :=
  match new_cmd_unprivileged env DISKUTIL ["apfs", "addVolume", "disk1", "apfs", nm, "-nomount"] with
  | .error e => (.error e, [])
  | .ok c =>
    if env.cmdSucceeds c.program c.args then
      match apfs_list env env.containersAfterAdd with
      | (.error e, t) => (.error e, c :: t)
      | (.ok containers, t) =>
        match find_existing_volume containers nm with
        | some v => (.ok v, c :: t)
        | none => (.error (.createFailed nm), c :: t)
    else (.error (.cmdFailed c.program c.args), [c])

/-- Models `unmount_scratch`: list the catalog, look up the volume labelled
with the encoding of the mount point, and spawn diskutil unmount
(optionally with force) on its device; no matching volume is an error. -/
def unmount_scratch (env : SysEnv) (mount_point : String) (force : Bool) :
    Except Err Unit × List Cmd :=
  match apfs_list env env.containers with
  | (.error e, t) => (.error e, t)
  | (.ok containers, t) =>
    let nm := encode_mount_point_as_volume_name mount_point
    match find_existing_volume containers nm with
    | some volume =>
      match new_cmd_unprivileged env DISKUTIL
          (["unmount"] ++ (if force then ["force"] else []) ++ [volume.device_identifier]) with
      | .error e => (.error e, t)
      | .ok c =>
        if env.cmdSucceeds c.program c.args then (.ok (), t ++ [c])
        else (.error (.cmdFailed c.program c.args), t ++ [c])
    | none => (.error (.volumeNotFound nm), t)

/-- Models `delete_scratch`: list the catalog, look up the volume labelled
with the encoding of the mount point, and spawn diskutil apfs deleteVolume
on its device; no matching volume is an error. -/
def delete_scratch (env : SysEnv) (mount_point : String) :
    Except Err Unit × List Cmd :=
  match apfs_list env env.containers with
  | (.error e, t) => (.error e, t)
  | (.ok containers, t) =>
    let nm := encode_mount_point_as_volume_name mount_point
    match find_existing_volume containers nm with
    | some volume =>
      match new_cmd_unprivileged env DISKUTIL ["apfs", "deleteVolume", volume.device_identifier] with
      | .error e => (.error e, t)
      | .ok c =>
        if env.cmdSucceeds c.program c.args then (.ok (), t ++ [c])
        else (.error (.cmdFailed c.program c.args), t ++ [c])
    | none => (.error (.volumeNotFound nm), t)

/-- Models the volume-resolution stage of `mount_scratch_space_on`: reuse the
existing volume found by label, first force-unmounting it when it is
currently mounted somewhere other than the target; create a new volume when
none is found. -/
def mount_resolve_volume (env : SysEnv) (mount_point nm : String)
    (containers : List ApfsContainer) : Except Err ApfsVolume × List Cmd :=
  match find_existing_volume containers nm with
  | some existing =>
    if existing.mount_point.isSome && existing.mount_point != some mount_point then
      match unmount_scratch env mount_point true with
      | (.ok _, t) => (.ok existing, t)
      | (.error e, t) => (.error e, t)
    else (.ok existing, [])
  | none => make_new_volume env nm

/-- Models `mount_scratch_space_on`: read the target's filesystem metadata,
resolve the caller's real uid and require it to equal the path's owner uid,
list the catalog, resolve the backing volume by encoded label, then spawn
the privileged mount_apfs with nobrowse/nodev/nosuid options and the
owner's uid and gid, and finally chown the mounted path to that owner. -/
def mount_scratch_space_on (env : SysEnv) (mount_point : String) :
    Except Err Unit × List Cmd :=
  match env.pathMeta mount_point with
  | none => (.error (.metadataError mount_point), [])
  | some (ownerUid, ownerGid) =>
    match get_real_uid env with
    | .error e => (.error e, [])
    | .ok my_uid =>
      if ownerUid ≠ my_uid then (.error (.notOwner mount_point ownerUid my_uid), [])
      else
        match apfs_list env env.containers with
        | (.error e, t) => (.error e, t)
        | (.ok containers, t) =>
          let nm := encode_mount_point_as_volume_name mount_point
          match mount_resolve_volume env mount_point nm containers with
          | (.error e, t2) => (.error e, t ++ t2)
          | (.ok volume, t2) =>
            match new_cmd_with_root_privs env MOUNT_APFS with
            | .error e => (.error e, t ++ t2)
            | .ok c0 =>
              let c : Cmd := ⟨c0.program,
                ["-onobrowse,nodev,nosuid", "-u", toString ownerUid, "-g", toString ownerGid,
                 "/dev/" ++ volume.device_identifier, mount_point], c0.setCreds⟩
              if env.cmdSucceeds c.program c.args then
                if env.chownOk then (.ok (), t ++ t2 ++ [c])
                else (.error .chownFailed, t ++ t2 ++ [c])
              else (.error (.cmdFailed c.program c.args), t ++ t2 ++ [c])

/-- Models the List subcommand of `main`: with the all flag every volume is
shown; otherwise only volumes whose name is present and starts with the
edenfs namespace are shown. -/
def list_shown_volumes (all : Bool) (containers : List ApfsContainer) : List ApfsVolume :=
  if all then containers.flatMap ApfsContainer.volumes
  else containers.flatMap (fun c => c.volumes.filter (fun v =>
    match v.name with
    | some nm => strStartsWith nm "edenfs:"
    | none => false))

/-- The de-privileged credentials a spawned command receives: the caller's
real uid and gid when the effective uid is 0, nothing otherwise. -/
def droppedCreds (env : SysEnv) : Option (Nat × Nat) :=
  if env.euid = 0 then some (env.uid, env.gid) else none

/-- The catalog-listing command apfs_list spawns. -/
def listCmd (env : SysEnv) : Cmd :=
  ⟨DISKUTIL, ["apfs", "list", "-plist"], droppedCreds env⟩

/-- The forced unmount command unmount_scratch spawns for a device. -/
def unmountForceCmd (env : SysEnv) (dev : String) : Cmd :=
  ⟨DISKUTIL, ["unmount", "force", dev], droppedCreds env⟩

/-- The privileged mount_apfs command mount_scratch_space_on spawns. -/
def mountApfsCmd (u g : Nat) (dev mount_point : String) : Cmd :=
  ⟨MOUNT_APFS,
   ["-onobrowse,nodev,nosuid", "-u", toString u, "-g", toString g,
    "/dev/" ++ dev, mount_point], none⟩

/-- A sample volume created by the tool for /tmp/x, auto-mounted under /Volumes. -/
def sampleVol : ApfsVolume := ⟨"disk1s5", some "/Volumes/autohome", some "edenfs:/tmp/x"⟩

/-- Builds a concrete system state for evaluation: gid 20, every spawned
command succeeds, chown succeeds, and the post-addVolume catalog is empty. -/
def mkEnv (uid euid : Nat) (sv : SudoUidVar) (cs : List ApfsContainer)
    (pm : String → Option (Nat × Nat)) : SysEnv :=
  ⟨uid, 20, euid, sv, cs, [], pm, fun _ _ => true, true⟩

/-- Path metadata assigning /tmp/x the owner uid 501 and gid 20. -/
def pmTmpX : String → Option (Nat × Nat) :=
  fun q => if q = "/tmp/x" then some (501, 20) else none

/-- Recognizes the volume-creation command: its argument list begins with
apfs addVolume. -/
def Cmd.isAddVolume (c : Cmd) : Bool := c.args.take 2 == ["apfs", "addVolume"]

/-- The tail of `mount_scratch_space_on` after the backing volume is
resolved: build the privileged mount_apfs command, run it, then chown;
`t` is the trace accumulated so far. -/
def mountStage (env : SysEnv) (p : String) (u g : Nat) (ex : ApfsVolume) (t : List Cmd) :
    Except Err Unit × List Cmd :=
  match new_cmd_with_root_privs env MOUNT_APFS with
  | .error e => (.error e, t)
  | .ok c0 =>
    let c : Cmd := ⟨c0.program,
      ["-onobrowse,nodev,nosuid", "-u", toString u, "-g", toString g,
       "/dev/" ++ ex.device_identifier, p], c0.setCreds⟩
    if env.cmdSucceeds c.program c.args then
      if env.chownOk then (.ok (), t ++ [c]) else (.error .chownFailed, t ++ [c])
    else (.error (.cmdFailed c.program c.args), t ++ [c])

theorem diskutil_absolute : isAbsolutePath DISKUTIL = true := by decide

theorem mount_apfs_absolute : isAbsolutePath MOUNT_APFS = true := by decide

theorem new_cmd_unprivileged_diskutil (env : SysEnv) (args : List String) :
    new_cmd_unprivileged env DISKUTIL args = .ok ⟨DISKUTIL, args, droppedCreds env⟩ := by
  simp [new_cmd_unprivileged, diskutil_absolute, droppedCreds]

theorem find_existing_volume_eq_find? (containers : List ApfsContainer) (nm : String) :
    find_existing_volume containers nm
      = (containers.flatMap ApfsContainer.volumes).find? (fun v => v.name == some nm) := by
  induction containers with
  | nil => simp [find_existing_volume]
  | cons c rest ih =>
    rw [find_existing_volume, List.flatMap_cons, List.find?_append, ← ih]
    cases h : c.volumes.find? (fun v => v.name == some nm) <;> simp [h, Option.or]

theorem find_existing_volume_name (containers : List ApfsContainer) (nm : String)
    (v : ApfsVolume) (h : find_existing_volume containers nm = some v) :
    v.name = some nm := by
  rw [find_existing_volume_eq_find?] at h
  have hp := List.find?_some h
  exact eq_of_beq hp

theorem apfs_list_eq (env : SysEnv) (cat : List ApfsContainer) :
    apfs_list env cat =
      if env.cmdSucceeds DISKUTIL ["apfs", "list", "-plist"]
      then (.ok cat, [listCmd env])
      else (.error (.cmdFailed DISKUTIL ["apfs", "list", "-plist"]), [listCmd env]) := by
  rw [apfs_list, new_cmd_unprivileged_diskutil]
  rfl

theorem unmount_scratch_eq (env : SysEnv) (p : String) (force : Bool) :
    unmount_scratch env p force =
      if env.cmdSucceeds DISKUTIL ["apfs", "list", "-plist"] then
        match find_existing_volume env.containers (encode_mount_point_as_volume_name p) with
        | some volume =>
          if env.cmdSucceeds DISKUTIL
              (["unmount"] ++ (if force then ["force"] else []) ++ [volume.device_identifier])
          then (.ok (), [listCmd env,
            ⟨DISKUTIL, ["unmount"] ++ (if force then ["force"] else []) ++ [volume.device_identifier],
             droppedCreds env⟩])
          else (.error (.cmdFailed DISKUTIL
              (["unmount"] ++ (if force then ["force"] else []) ++ [volume.device_identifier])),
            [listCmd env,
             ⟨DISKUTIL, ["unmount"] ++ (if force then ["force"] else []) ++ [volume.device_identifier],
              droppedCreds env⟩])
        | none => (.error (.volumeNotFound (encode_mount_point_as_volume_name p)), [listCmd env])
      else (.error (.cmdFailed DISKUTIL ["apfs", "list", "-plist"]), [listCmd env]) := by
  rw [unmount_scratch, apfs_list_eq]
  cases h : env.cmdSucceeds DISKUTIL ["apfs", "list", "-plist"] <;>
    simp only [Bool.false_eq_true, reduceIte]
  rfl

theorem delete_scratch_eq (env : SysEnv) (p : String) :
    delete_scratch env p =
      if env.cmdSucceeds DISKUTIL ["apfs", "list", "-plist"] then
        match find_existing_volume env.containers (encode_mount_point_as_volume_name p) with
        | some volume =>
          if env.cmdSucceeds DISKUTIL ["apfs", "deleteVolume", volume.device_identifier]
          then (.ok (), [listCmd env,
            ⟨DISKUTIL, ["apfs", "deleteVolume", volume.device_identifier], droppedCreds env⟩])
          else (.error (.cmdFailed DISKUTIL ["apfs", "deleteVolume", volume.device_identifier]),
            [listCmd env,
             ⟨DISKUTIL, ["apfs", "deleteVolume", volume.device_identifier], droppedCreds env⟩])
        | none => (.error (.volumeNotFound (encode_mount_point_as_volume_name p)), [listCmd env])
      else (.error (.cmdFailed DISKUTIL ["apfs", "list", "-plist"]), [listCmd env]) := by
  rw [delete_scratch, apfs_list_eq]
  cases h : env.cmdSucceeds DISKUTIL ["apfs", "list", "-plist"] <;>
    simp only [Bool.false_eq_true, reduceIte]
  rfl

/-- C1: when the mount target's recorded owner uid differs from the real
caller uid computed by get_real_uid, mount_scratch_space_on fails with the
ownership authorization error and its trace is empty: no catalog query, no
volume creation, and no privileged mount_apfs invocation happens. -/
theorem C1_mount_ownership_gate (env : SysEnv) (p : String) (ownerUid ownerGid my_uid : Nat)
    (hmeta : env.pathMeta p = some (ownerUid, ownerGid))
    (huid : get_real_uid env = .ok my_uid)
    (hne : ownerUid ≠ my_uid) :
    mount_scratch_space_on env p = (.error (.notOwner p ownerUid my_uid), []) := by
  rw [mount_scratch_space_on, hmeta, huid]
  simp [hne]

/-- C1 witness: a caller with real uid 502 asking to mount /tmp/x, which is
owned by uid 501, is rejected with no subprocess spawned. -/
theorem C1_witness :
    mount_scratch_space_on (mkEnv 502 0 .absent [⟨"disk1", [sampleVol]⟩] pmTmpX) "/tmp/x"
      = (.error (.notOwner "/tmp/x" 501 502), []) :=
  C1_mount_ownership_gate (mkEnv 502 0 .absent [⟨"disk1", [sampleVol]⟩] pmTmpX)
    "/tmp/x" 501 20 502 (by decide) rfl (by decide)

/-- C2: when no volume in the catalog carries the label encoding the target
path, unmount_scratch and delete_scratch both fail with the not-found error
and spawn only the read-only catalog listing: no unmount and no
deleteVolume command runs. -/
theorem C2_unmount_delete_not_found (env : SysEnv) (p : String) (force : Bool)
    (hlist : env.cmdSucceeds DISKUTIL ["apfs", "list", "-plist"] = true)
    (hfind : find_existing_volume env.containers (encode_mount_point_as_volume_name p) = none) :
    unmount_scratch env p force
      = (.error (.volumeNotFound (encode_mount_point_as_volume_name p)), [listCmd env]) ∧
    delete_scratch env p
      = (.error (.volumeNotFound (encode_mount_point_as_volume_name p)), [listCmd env]) := by
  rw [unmount_scratch_eq, delete_scratch_eq, hlist, hfind]
  simp

/-- C2 witness: with an empty catalog, unmounting and deleting /tmp/x fail
with the not-found error after only the listing command. -/
theorem C2_witness :
    unmount_scratch (mkEnv 501 0 .absent [⟨"disk1", []⟩] pmTmpX) "/tmp/x" true
      = (.error (.volumeNotFound (encode_mount_point_as_volume_name "/tmp/x")),
         [listCmd (mkEnv 501 0 .absent [⟨"disk1", []⟩] pmTmpX)]) ∧
    delete_scratch (mkEnv 501 0 .absent [⟨"disk1", []⟩] pmTmpX) "/tmp/x"
      = (.error (.volumeNotFound (encode_mount_point_as_volume_name "/tmp/x")),
         [listCmd (mkEnv 501 0 .absent [⟨"disk1", []⟩] pmTmpX)]) :=
  C2_unmount_delete_not_found (mkEnv 501 0 .absent [⟨"disk1", []⟩] pmTmpX)
    "/tmp/x" true (by decide) (by decide)

/-- C3: new_cmd_with_root_privs requires an absolute path and an effective
uid of 0; a relative path or a non-root effective uid is a fatal assertion
(modelled as an error, so no command value exists and no subprocess runs). -/
theorem C3_root_privs_assertion (env : SysEnv) (path : String) :
    (isAbsolutePath path = false → new_cmd_with_root_privs env path = .error (.notAbsolute path)) ∧
    (isAbsolutePath path = true → env.euid ≠ 0 →
      new_cmd_with_root_privs env path = .error (.notRoot path)) := by
  refine ⟨fun h => ?_, fun ha hne => ?_⟩ <;> simp [new_cmd_with_root_privs, *]

/-- C3 witness: with effective uid 501, preparing the privileged mount_apfs
command is a fatal contract violation. -/
theorem C3_witness :
    new_cmd_with_root_privs (mkEnv 501 501 .absent [] pmTmpX) MOUNT_APFS
      = .error (.notRoot MOUNT_APFS) :=
  (C3_root_privs_assertion (mkEnv 501 501 .absent [] pmTmpX) MOUNT_APFS).2
    (by decide) (by decide)

/-- C4: get_real_uid returns the real uid when it is non-zero; for real
root it returns the parsed SUDO_UID when that parses as an integer, returns
zero when SUDO_UID is absent, and fails when SUDO_UID is present but
non-numeric or non-unicode. -/
theorem C4_get_real_uid_spec (env : SysEnv) (s : String) (n : Nat) :
    (env.uid ≠ 0 → get_real_uid env = .ok env.uid) ∧
    (env.uid = 0 → env.sudoUid = .present s → parseU32 s = some n →
      get_real_uid env = .ok n) ∧
    (env.uid = 0 → env.sudoUid = .absent → get_real_uid env = .ok 0) ∧
    (env.uid = 0 → env.sudoUid = .present s → parseU32 s = none →
      get_real_uid env = .error (.sudoUidNotInt s)) ∧
    (env.uid = 0 → env.sudoUid = .notUnicode → get_real_uid env = .error .sudoUidNotUnicode) := by
  refine ⟨fun h => ?_, fun h0 hs hp => ?_, fun h0 hs => ?_, fun h0 hs hp => ?_, fun h0 hs => ?_⟩ <;>
    simp [get_real_uid, *]

/-- C4 witness: the five behaviours at concrete environments: a non-root
caller, root under sudo with a numeric hint, root with no hint, root with a
non-numeric hint, and root with a non-unicode hint. -/
theorem C4_witness :
    get_real_uid (mkEnv 501 0 .absent [] pmTmpX) = .ok 501 ∧
    get_real_uid (mkEnv 0 0 (.present "501") [] pmTmpX) = .ok 501 ∧
    get_real_uid (mkEnv 0 0 .absent [] pmTmpX) = .ok 0 ∧
    get_real_uid (mkEnv 0 0 (.present "4a") [] pmTmpX) = .error (.sudoUidNotInt "4a") ∧
    get_real_uid (mkEnv 0 0 .notUnicode [] pmTmpX) = .error .sudoUidNotUnicode :=
  ⟨(C4_get_real_uid_spec (mkEnv 501 0 .absent [] pmTmpX) "" 0).1 (by decide),
   (C4_get_real_uid_spec (mkEnv 0 0 (.present "501") [] pmTmpX) "501" 501).2.1
     rfl rfl (by decide),
   (C4_get_real_uid_spec (mkEnv 0 0 .absent [] pmTmpX) "" 0).2.2.1 rfl rfl,
   (C4_get_real_uid_spec (mkEnv 0 0 (.present "4a") [] pmTmpX) "4a" 0).2.2.2.1
     rfl rfl (by decide),
   (C4_get_real_uid_spec (mkEnv 0 0 .notUnicode [] pmTmpX) "" 0).2.2.2.2 rfl rfl⟩

/-- C5: every encoded label starts with the edenfs: namespace; the
label-based lookup used by mount, unmount and delete only returns a volume
whose label is exactly the encoded label (so never a foreign label); and
listing without the all flag surfaces only volumes whose label is present
and starts with the namespace. -/
theorem C5_namespace_gate (p : String) (containers : List ApfsContainer) (v : ApfsVolume) :
    strStartsWith (encode_mount_point_as_volume_name p) "edenfs:" = true ∧
    (find_existing_volume containers (encode_mount_point_as_volume_name p) = some v →
      v.name = some (encode_mount_point_as_volume_name p)) ∧
    (v ∈ list_shown_volumes false containers →
      ∃ s, v.name = some s ∧ strStartsWith s "edenfs:" = true) := by
  refine ⟨?_, fun h => find_existing_volume_name _ _ _ h, fun hmem => ?_⟩
  · simp only [strStartsWith, encode_mount_point_as_volume_name, String.data_append,
      List.isPrefixOf_iff_prefix]
    exact List.prefix_append _ _
  · simp only [list_shown_volumes, Bool.false_eq_true, reduceIte, List.mem_flatMap] at hmem
    obtain ⟨c, _, hv⟩ := hmem
    rw [List.mem_filter] at hv
    obtain ⟨_, hv2⟩ := hv
    cases hname : v.name with
    | none => rw [hname] at hv2; simp at hv2
    | some s => rw [hname] at hv2; exact ⟨s, rfl, by simpa using hv2⟩

/-- C5 witness: the label for /tmp/x carries the namespace, the lookup for
that label returns the volume labelled with it, and that volume is shown by
the non-all listing with a namespaced label. -/
theorem C5_witness :
    strStartsWith (encode_mount_point_as_volume_name "/tmp/x") "edenfs:" = true ∧
    sampleVol.name = some (encode_mount_point_as_volume_name "/tmp/x") ∧
    ∃ s, sampleVol.name = some s ∧ strStartsWith s "edenfs:" = true :=
  ⟨(C5_namespace_gate "/tmp/x" [⟨"disk1", [sampleVol]⟩] sampleVol).1,
   (C5_namespace_gate "/tmp/x" [⟨"disk1", [sampleVol]⟩] sampleVol).2.1 (by decide),
   (C5_namespace_gate "/tmp/x" [⟨"disk1", [sampleVol]⟩] sampleVol).2.2 (by decide)⟩

/-- C6: the label encoding is deterministic (it is a function, and equal
inputs give equal labels) and injective: two paths yield the same label
exactly when they are the same path. -/
theorem C6_encode_injective (p1 p2 : String) :
    encode_mount_point_as_volume_name p1 = encode_mount_point_as_volume_name p2 ↔ p1 = p2 := by
  constructor
  · intro h
    have h2 : ("edenfs:" ++ p1).data = ("edenfs:" ++ p2).data := by
      simpa [encode_mount_point_as_volume_name] using congrArg String.data h
    simp only [String.data_append, List.append_cancel_left_eq] at h2
    cases p1; cases p2; simp_all
  · intro h; rw [h]

/-- C7: find_existing_volume equals first-match search over the containers'
volumes flattened in scan order (containers in sequence order, volumes
within each container in sequence order, first match wins), and any volume
it returns has a label, namely the searched one. -/
theorem C7_find_first_match (containers : List ApfsContainer) (nm : String) :
    find_existing_volume containers nm
      = (containers.flatMap ApfsContainer.volumes).find? (fun v => v.name == some nm) ∧
    (∀ v, find_existing_volume containers nm = some v → v.name = some nm) :=
  ⟨find_existing_volume_eq_find? containers nm,
   fun v h => find_existing_volume_name containers nm v h⟩

/-- C7 witness: with the same label in two containers, the scan returns the
volume from the first container, and the returned volume carries the
searched label. -/
theorem C7_witness :
    find_existing_volume
        [⟨"disk1", [⟨"d1", none, some "edenfs:/a"⟩]⟩, ⟨"disk2", [⟨"d2", none, some "edenfs:/a"⟩]⟩]
        "edenfs:/a"
      = (([⟨"disk1", [⟨"d1", none, some "edenfs:/a"⟩]⟩,
           ⟨"disk2", [⟨"d2", none, some "edenfs:/a"⟩]⟩] :
            List ApfsContainer).flatMap ApfsContainer.volumes).find?
          (fun v => v.name == some "edenfs:/a") ∧
    (⟨"d1", none, some "edenfs:/a"⟩ : ApfsVolume).name = some "edenfs:/a" :=
  ⟨(C7_find_first_match
      [⟨"disk1", [⟨"d1", none, some "edenfs:/a"⟩]⟩, ⟨"disk2", [⟨"d2", none, some "edenfs:/a"⟩]⟩]
      "edenfs:/a").1,
   (C7_find_first_match
      [⟨"disk1", [⟨"d1", none, some "edenfs:/a"⟩]⟩, ⟨"disk2", [⟨"d2", none, some "edenfs:/a"⟩]⟩]
      "edenfs:/a").2 ⟨"d1", none, some "edenfs:/a"⟩ (by decide)⟩

/-- C10: make_new_volume always spawns the creation command against the
hard-coded container reference disk1: for every environment (whatever
containers its catalog holds) and every label, the first spawned command is
diskutil with arguments apfs addVolume disk1 apfs label -nomount. -/
theorem C10_make_new_volume_targets_disk1 (env : SysEnv) (nm : String) :
    ((make_new_volume env nm).2.head?).map Cmd.visible
      = some (DISKUTIL, ["apfs", "addVolume", "disk1", "apfs", nm, "-nomount"]) := by
  simp only [make_new_volume, new_cmd_unprivileged_diskutil]
  split <;> try split <;> try split
  all_goals simp [Cmd.visible]

theorem new_cmd_with_root_privs_eq (env : SysEnv) :
    new_cmd_with_root_privs env MOUNT_APFS =
      if env.euid = 0 then .ok ⟨MOUNT_APFS, [], none⟩ else .error (.notRoot MOUNT_APFS) := by
  rw [new_cmd_with_root_privs]
  simp only [mount_apfs_absolute, reduceIte]

theorem mountStage_eq (env : SysEnv) (p : String) (u g : Nat) (ex : ApfsVolume) (t : List Cmd) :
    mountStage env p u g ex t =
      if env.euid = 0 then
        if env.cmdSucceeds MOUNT_APFS
            ["-onobrowse,nodev,nosuid", "-u", toString u, "-g", toString g,
             "/dev/" ++ ex.device_identifier, p] then
          if env.chownOk then (.ok (), t ++ [mountApfsCmd u g ex.device_identifier p])
          else (.error .chownFailed, t ++ [mountApfsCmd u g ex.device_identifier p])
        else (.error (.cmdFailed MOUNT_APFS
            ["-onobrowse,nodev,nosuid", "-u", toString u, "-g", toString g,
             "/dev/" ++ ex.device_identifier, p]),
          t ++ [mountApfsCmd u g ex.device_identifier p])
      else (.error (.notRoot MOUNT_APFS), t) := by
  rw [mountStage, new_cmd_with_root_privs_eq]
  by_cases h0 : env.euid = 0 <;> simp only [h0, reduceIte] <;> rfl

theorem mountStage_trace (env : SysEnv) (p : String) (u g : Nat) (ex : ApfsVolume)
    (t : List Cmd) (h0 : env.euid = 0) :
    (mountStage env p u g ex t).2 = t ++ [mountApfsCmd u g ex.device_identifier p] := by
  rw [mountStage_eq]
  simp only [h0, reduceIte]
  split <;> try split
  all_goals rfl

theorem mountStage_trace_cases (env : SysEnv) (p : String) (u g : Nat) (ex : ApfsVolume)
    (t : List Cmd) :
    (mountStage env p u g ex t).2 = t ∨
    (mountStage env p u g ex t).2 = t ++ [mountApfsCmd u g ex.device_identifier p] := by
  rw [mountStage_eq]
  by_cases h0 : env.euid = 0 <;> simp only [h0, reduceIte]
  · right
    split <;> try split
    all_goals rfl
  · left
    trivial

theorem mount_found_eq (env : SysEnv) (p : String) (u g : Nat) (ex : ApfsVolume)
    (hmeta : env.pathMeta p = some (u, g))
    (huid : get_real_uid env = .ok u)
    (hfind : find_existing_volume env.containers (encode_mount_point_as_volume_name p) = some ex) :
    mount_scratch_space_on env p =
      if env.cmdSucceeds DISKUTIL ["apfs", "list", "-plist"] then
        if ex.mount_point.isSome && ex.mount_point != some p then
          if env.cmdSucceeds DISKUTIL ["unmount", "force", ex.device_identifier] then
            mountStage env p u g ex
              [listCmd env, listCmd env, unmountForceCmd env ex.device_identifier]
          else (.error (.cmdFailed DISKUTIL ["unmount", "force", ex.device_identifier]),
                [listCmd env, listCmd env, unmountForceCmd env ex.device_identifier])
        else mountStage env p u g ex [listCmd env]
      else (.error (.cmdFailed DISKUTIL ["apfs", "list", "-plist"]), [listCmd env]) := by
  have hou : ¬ (u ≠ u) := fun hne => hne rfl
  rw [mount_scratch_space_on]
  simp only [hmeta, huid, hou, reduceIte, apfs_list_eq]
  cases h : env.cmdSucceeds DISKUTIL ["apfs", "list", "-plist"] <;>
    simp only [h, Bool.false_eq_true, reduceIte]
  rw [mount_resolve_volume, hfind]
  cases hcond : ex.mount_point.isSome && ex.mount_point != some p <;>
    simp only [hcond, Bool.false_eq_true, reduceIte]
  · rw [new_cmd_with_root_privs_eq, mountStage_eq]
    by_cases h0 : env.euid = 0 <;> simp only [h0, reduceIte]
    · split <;> try split
      all_goals rfl
    · rfl
  · rw [unmount_scratch_eq]
    simp only [h, hcond, hfind, reduceIte, List.cons_append, List.nil_append]
    cases hu : env.cmdSucceeds DISKUTIL ["unmount", "force", ex.device_identifier] <;>
      simp only [hu, Bool.false_eq_true, reduceIte]
    · rfl
    · rw [new_cmd_with_root_privs_eq, mountStage_eq]
      by_cases h0 : env.euid = 0 <;> simp only [h0, reduceIte]
      · split <;> try split
        all_goals rfl
      · rfl

/-- C8: when a volume with the encoded label already exists, Mount spawns no
volume-creation command (re-running Mount for an already-provisioned path
re-discovers the volume instead of creating a duplicate); and when that
volume is currently mounted somewhere other than the target, Mount first
spawns a forced unmount and only then the privileged mount_apfs, in that
order. -/
theorem C8_mount_reuses_existing (env : SysEnv) (p : String) (u g : Nat) (ex : ApfsVolume)
    (hmeta : env.pathMeta p = some (u, g))
    (huid : get_real_uid env = .ok u)
    (hfind : find_existing_volume env.containers (encode_mount_point_as_volume_name p) = some ex) :
    (∀ c ∈ (mount_scratch_space_on env p).2, c.isAddVolume = false) ∧
    (∀ q, ex.mount_point = some q → q ≠ p → env.euid = 0 →
      env.cmdSucceeds DISKUTIL ["apfs", "list", "-plist"] = true →
      env.cmdSucceeds DISKUTIL ["unmount", "force", ex.device_identifier] = true →
      (mount_scratch_space_on env p).2
        = [listCmd env, listCmd env, unmountForceCmd env ex.device_identifier,
           mountApfsCmd u g ex.device_identifier p]) := by
  constructor
  · rw [mount_found_eq env p u g ex hmeta huid hfind]
    cases h : env.cmdSucceeds DISKUTIL ["apfs", "list", "-plist"] <;>
      simp only [h, Bool.false_eq_true, reduceIte]
    · intro c hc
      simp only [List.mem_singleton] at hc
      subst hc
      rfl
    · cases hcond : ex.mount_point.isSome && ex.mount_point != some p <;>
        simp only [hcond, Bool.false_eq_true, reduceIte]
      · intro c hc
        rcases mountStage_trace_cases env p u g ex [listCmd env] with ht | ht <;> rw [ht] at hc
        · simp only [List.mem_singleton] at hc
          subst hc
          rfl
        · simp only [List.mem_append, List.mem_singleton] at hc
          rcases hc with rfl | rfl <;> rfl
      · cases hu : env.cmdSucceeds DISKUTIL ["unmount", "force", ex.device_identifier] <;>
          simp only [hu, Bool.false_eq_true, reduceIte]
        · intro c hc
          simp only [List.mem_cons, List.not_mem_nil, or_false] at hc
          rcases hc with rfl | rfl | rfl <;> rfl
        · intro c hc
          rcases mountStage_trace_cases env p u g ex
              [listCmd env, listCmd env, unmountForceCmd env ex.device_identifier] with ht | ht <;>
            rw [ht] at hc <;>
            simp only [List.mem_append, List.mem_cons, List.mem_singleton,
              List.not_mem_nil, or_false] at hc
          · rcases hc with rfl | rfl | rfl <;> rfl
          · rcases hc with (rfl | rfl | rfl) | rfl <;> rfl
  · intro q hq hqp h0 hlist hu
    have hcond : (ex.mount_point.isSome && ex.mount_point != some p) = true := by
      simp [hq, bne_iff_ne, hqp]
    rw [mount_found_eq env p u g ex hmeta huid hfind]
    simp only [hlist, hcond, hu, reduceIte]
    rw [mountStage_trace env p u g ex _ h0]
    rfl

/-- C8 witness: /tmp/x is owned by the calling uid 501, its volume exists
with label edenfs:/tmp/x but is auto-mounted under /Volumes, and Mount's
trace is exactly list, list, forced unmount, privileged mount_apfs. -/
theorem C8_witness :
    (mount_scratch_space_on (mkEnv 501 0 .absent [⟨"disk1", [sampleVol]⟩] pmTmpX) "/tmp/x").2
      = [listCmd (mkEnv 501 0 .absent [⟨"disk1", [sampleVol]⟩] pmTmpX),
         listCmd (mkEnv 501 0 .absent [⟨"disk1", [sampleVol]⟩] pmTmpX),
         unmountForceCmd (mkEnv 501 0 .absent [⟨"disk1", [sampleVol]⟩] pmTmpX) "disk1s5",
         mountApfsCmd 501 20 "disk1s5" "/tmp/x"] :=
  (C8_mount_reuses_existing (mkEnv 501 0 .absent [⟨"disk1", [sampleVol]⟩] pmTmpX)
      "/tmp/x" 501 20 sampleVol (by decide) rfl (by decide)).2
    "/Volumes/autohome" rfl (by decide) rfl rfl rfl

/-- C9: unmount_scratch and delete_scratch consult neither the caller's
identity nor the target path's filesystem metadata: two invocations that
agree on the catalog and on subprocess exit statuses — but may differ in
real uid, gid, effective uid, SUDO_UID, and path ownership — produce the
same result and spawn the same programs with the same arguments. -/
theorem C9_unmount_delete_caller_independent (e1 e2 : SysEnv) (p : String) (force : Bool)
    (hc : e1.containers = e2.containers)
    (hs : e1.cmdSucceeds = e2.cmdSucceeds) :
    (unmount_scratch e1 p force).1 = (unmount_scratch e2 p force).1 ∧
    (unmount_scratch e1 p force).2.map Cmd.visible
      = (unmount_scratch e2 p force).2.map Cmd.visible ∧
    (delete_scratch e1 p).1 = (delete_scratch e2 p).1 ∧
    (delete_scratch e1 p).2.map Cmd.visible = (delete_scratch e2 p).2.map Cmd.visible := by
  rw [unmount_scratch_eq, unmount_scratch_eq, delete_scratch_eq, delete_scratch_eq, hc, hs]
  cases h : e2.cmdSucceeds DISKUTIL ["apfs", "list", "-plist"] <;>
    simp only [h, Bool.false_eq_true, reduceIte]
  · simp [Cmd.visible, listCmd]
  · cases hf : find_existing_volume e2.containers (encode_mount_point_as_volume_name p) with
    | none => simp [hf, Cmd.visible, listCmd]
    | some v =>
      simp only [hf, List.cons_append, List.nil_append]
      cases hu : e2.cmdSucceeds DISKUTIL
          ("unmount" :: ((if force then ["force"] else []) ++ [v.device_identifier])) <;>
        cases hd : e2.cmdSucceeds DISKUTIL ["apfs", "deleteVolume", v.device_identifier] <;>
          simp [hu, hd, Cmd.visible, listCmd]

/-- C9 witness: a non-root caller and a root caller with different ids and
path metadata get identical unmount and delete outcomes on the same
catalog. -/
theorem C9_witness :
    (unmount_scratch (mkEnv 501 0 .absent [⟨"disk1", [sampleVol]⟩] pmTmpX) "/tmp/x" false).1
      = (unmount_scratch (mkEnv 0 1 (.present "99") [⟨"disk1", [sampleVol]⟩] (fun _ => none))
          "/tmp/x" false).1 ∧
    (unmount_scratch (mkEnv 501 0 .absent [⟨"disk1", [sampleVol]⟩] pmTmpX) "/tmp/x" false).2.map
        Cmd.visible
      = (unmount_scratch (mkEnv 0 1 (.present "99") [⟨"disk1", [sampleVol]⟩] (fun _ => none))
          "/tmp/x" false).2.map Cmd.visible ∧
    (delete_scratch (mkEnv 501 0 .absent [⟨"disk1", [sampleVol]⟩] pmTmpX) "/tmp/x").1
      = (delete_scratch (mkEnv 0 1 (.present "99") [⟨"disk1", [sampleVol]⟩] (fun _ => none))
          "/tmp/x").1 ∧
    (delete_scratch (mkEnv 501 0 .absent [⟨"disk1", [sampleVol]⟩] pmTmpX) "/tmp/x").2.map
        Cmd.visible
      = (delete_scratch (mkEnv 0 1 (.present "99") [⟨"disk1", [sampleVol]⟩] (fun _ => none))
          "/tmp/x").2.map Cmd.visible :=
  C9_unmount_delete_caller_independent
    (mkEnv 501 0 .absent [⟨"disk1", [sampleVol]⟩] pmTmpX)
    (mkEnv 0 1 (.present "99") [⟨"disk1", [sampleVol]⟩] (fun _ => none))
    "/tmp/x" false rfl rfl
